import Mathlib

/-! Transfer-Exit (service 0x37) and Transfer-Data (service 0x36) of the OTA
transfer workflow, the ECU notification and the HVAC data file.

A shallow embedding of `RequestTransferExit.cpp`, `ECU.cpp`, `HVACModule.cpp`
and of the declarations of `NegativeResponse.h` and `TransferData.h`.  Bytes (`uint8_t`) and frame
identifiers (`canid_t`, 32-bit unsigned) are natural numbers; a byte vector is
a `List Nat`.  The effects of a handler are recorded in a `World`: the DID
store, the calls made to the frame senders, and the invocations of the
completion callback.
-/

/-! ## NegativeResponse.h -/

namespace NegativeResponse

/-- SubFunction Not Supported. -/
def SFNS : Nat := 0x12
/-- Incorrect Message Length Or Invalid Format. -/
def IMLOIF : Nat := 0x13
/-- Request Sequence Error. -/
def RSE : Nat := 0x24
/-- General Programming Failure. -/
def GPF : Nat := 0x72
/-- Wrong Block Sequence Counter. -/
def WBSC : Nat := 0x73

end NegativeResponse

/-! ## The world a handler acts on -/

/-- One call to a frame sender.  `frame id data` is a call
`GenerateFrames::sendFrame(id, data)`; `nrc id sid code` is a call
`NegativeResponse::sendNRC(id, sid, code)`. -/
inductive Sent where
  | frame (id : Nat) (data : List Nat)
  | nrc (id : Nat) (sid : Nat) (code : Nat)
  deriving DecidableEq

/-- The call is a positive response (a data frame handed to `sendFrame`). -/
def Sent.isPositive : Sent → Bool
  | .frame _ _ => true
  | .nrc _ _ _ => false

/-- The call is a negative response (a call to `sendNRC`). -/
def Sent.isNegative : Sent → Bool
  | .frame _ _ => false
  | .nrc _ _ _ => true

/-- The frame identifier a response is addressed to. -/
def Sent.address : Sent → Nat
  | .frame id _ => id
  | .nrc id _ _ => id

/-- Modelled from the spec: `FileManager` (the DID store) is not under src/.
The spec describes it as a persisted mapping from data-identifier keys to
byte-sequence values, read and written by key, unique key, last write wins.
Both accessors also receive the frame identifier of the request
(`aux_can_id`), so the mapping is keyed by that identifier and the DID. -/
def DidStore : Type := Nat → Nat → List Nat

/-- State outside the service object: the DID store, the calls made to the
frame senders (oldest first) and the arguments the completion callback was
invoked with (oldest first). -/
structure World where
  store : DidStore
  sent : List Sent
  callbackCalls : List Bool

namespace FileManager

/-- Modelled from the spec: `FileManager::getDidValue(did, can_id, logger)` is
not under src/; it reads the value stored under the key. -/
def getDidValue (did can_id : Nat) (w : World) : List Nat :=
  w.store can_id did

/-- Modelled from the spec: `FileManager::setDidValue(did, value, can_id,
logger, socket)` is not under src/; it writes the value under the key and
leaves every other entry as it was (last write wins). -/
def setDidValue (did : Nat) (value : List Nat) (can_id : Nat) (w : World) : World :=
  { w with store := fun c d => if c = can_id ∧ d = did then value else w.store c d }

end FileManager

namespace GenerateFrames

/-- Modelled from the spec: the body of `GenerateFrames::sendFrame` is not
under src/ (the frame transport is an external collaborator); the call is
recorded with the identifier and payload it was given. -/
def sendFrame (id : Nat) (data : List Nat) (w : World) : World :=
  { w with sent := w.sent ++ [Sent.frame id data] }

end GenerateFrames

namespace NegativeResponse

/-- Modelled from the spec: the body of `NegativeResponse::sendNRC` is not
under src/; per the spec it composes one error frame carrying the service id
and the NRC code and sends it.  The call is recorded with its arguments. -/
def sendNRC (id sid nrc : Nat) (w : World) : World :=
  { w with sent := w.sent ++ [Sent.nrc id sid nrc] }

end NegativeResponse

/-! ## Constants declared outside src/ -/

/-- The OTA status DID and the status values used by Transfer-Exit.  Their
header is not under src/, so they are parameters of the handler. -/
structure OtaConstants where
  OTA_UPDATE_STATUS_DID : Nat
  PROCESSING_TRANSFER_COMPLETE : Nat
  READY : Nat
  IDLE : Nat

/-- Modelled from the spec: the header that defines the OTA status DID and the
status values is not under src/.  The spec lists `IDLE`,
`PROCESSING_TRANSFER_COMPLETE` and `READY` as distinct values of the one-byte
status; the DID `0xE001` and the initial value `0` (taken for `IDLE`) are those
of the "OTA Status" entry of `default_DID_hvac` in `HVACModule.cpp`.  This
assignment is used to evaluate the handler on concrete inputs; the general
theorems hold for every assignment. -/
def sampleConstants : OtaConstants :=
  { OTA_UPDATE_STATUS_DID := 0xE001
    PROCESSING_TRANSFER_COMPLETE := 0x31
    READY := 0x40
    IDLE := 0x00 }

/-! ## RequestTransferExit.cpp -/

/-- The service object: the socket and the optional completion callback
(`callback_`, empty when null). -/
structure RequestTransferExit where
  socket : Int
  callback_ : Option (Bool → Bool)

namespace RequestTransferExit

/-- Constructor: initializes `callback_` to `nullptr`. -/
def ctor (socket : Int) : RequestTransferExit :=
  { socket := socket, callback_ := none }

/-- Service identifier for Request Transfer Exit. -/
def RTES_SERVICE_ID : Nat := 0x37

/-- Method to set the callback function. -/
def setTransferCompleteCallBack (self : RequestTransferExit)
    (callback : Option (Bool → Bool)) : RequestTransferExit :=
  { self with callback_ := callback }

/-- Method `requestTransferExit(id, transferSuccess)`: invokes the callback
when it is set and returns its result, otherwise returns `false`. -/
def requestTransferExit (self : RequestTransferExit) (_id : Int) (transferSuccess : Bool)
    (w : World) : Bool × World :=
  match self.callback_ with
  | some callback =>
    let continueTransfer := callback transferSuccess
    (continueTransfer, { w with callbackCalls := w.callbackCalls ++ [transferSuccess] })
  | none => (false, w)

/-- The reversal of sender and receiver computed at the top of
`requestTRansferExitRequest`: `receiver_id` and `sender_id` are `uint8_t`,
the result is assigned back to the 32-bit `can_id`. -/
def reverseIds (can_id : Nat) : Nat :=
  let receiver_id := (can_id &&& 0xFF) % 256
  let sender_id := ((can_id >>> 8) &&& 0xFF) % 256
  ((receiver_id <<< 8) ||| sender_id) % 2 ^ 32

/-- Method `requestTRansferExitRequest(can_id, request_transfer_exit_data)`.
The C++ method returns `void`; the result here is the world after the call,
or `none` when the call indexes element 0 of an empty stored value. -/
def requestTRansferExitRequest (k : OtaConstants) (_self : RequestTransferExit)
    (can_id : Nat) (request_transfer_exit_data : List Nat) (w : World) : Option World :=
  let aux_can_id := can_id
  let can_id := reverseIds can_id
  if h : request_transfer_exit_data.length < 3 then
    some (NegativeResponse.sendNRC can_id RTES_SERVICE_ID NegativeResponse.IMLOIF w)
  else
    match FileManager.getDidValue k.OTA_UPDATE_STATUS_DID aux_can_id w with
    | [] => none
    | value :: _ =>
      if value = k.PROCESSING_TRANSFER_COMPLETE then
        let response := [0x02, 0x77, request_transfer_exit_data[2]]
        let w := GenerateFrames.sendFrame can_id response w
        some (FileManager.setDidValue k.OTA_UPDATE_STATUS_DID [k.READY] aux_can_id w)
      else
        let w := NegativeResponse.sendNRC can_id RTES_SERVICE_ID NegativeResponse.RSE w
        some (FileManager.setDidValue k.OTA_UPDATE_STATUS_DID [k.IDLE] aux_can_id w)

/-- The stored OTA status of the module addressed by `can_id`: element 0 of
the value of `OTA_UPDATE_STATUS_DID`, when there is one. -/
def otaStatus (k : OtaConstants) (can_id : Nat) (w : World) : Option Nat :=
  (FileManager.getDidValue k.OTA_UPDATE_STATUS_DID can_id w).head?

end RequestTransferExit

/-- A store whose every entry holds the single byte `b`. -/
def constStore (b : Nat) : DidStore := fun _ _ => [b]

/-- A world with nothing sent yet and every store entry equal to `[b]`. -/
def freshWorld (b : Nat) : World :=
  { store := constStore b, sent := [], callbackCalls := [] }

/-- A world whose store holds `[b]` under the frame identifier `key` (for every
DID) and `[other]` under every other identifier. -/
def keyedWorld (key b other : Nat) : World :=
  { store := fun c _ => if c = key then [b] else [other], sent := [], callbackCalls := [] }

/-! ## TransferData.h -/

/-- The static and private state declared by `TransferData`:
`expected_block_sequence_number` is a `uint8_t`, the sizes are `size_t`,
`checksums` holds one byte per accepted chunk. -/
structure TransferSession where
  expected_block_sequence_number : Nat
  chunk_size : Nat
  total_size : Nat
  bytes_sent : Nat
  memory_write_status : Bool
  checksums : List Nat
  deriving DecidableEq

namespace TransferData

/-- Service identifier of Transfer Data. -/
def TD_SID : Nat := 0x36

/-- Modelled from the spec: the body of `TransferData::computeChecksum(data,
block_size)` is not under src/; the spec gives a one-byte checksum over the
block, the sum of its bytes modulo 256. -/
def computeChecksum (data : List Nat) (block_size : Nat) : Nat :=
  (data.take block_size).foldl (fun sum byte => (sum + byte) % 256) 0

/-- Modelled from the spec: the session as the Request-Download step leaves it
before the first Transfer-Data call: sequence number 1, the chunk size, sizes
reset to 0 and no checksums. -/
def configure (chunk_size : Nat) : TransferSession :=
  { expected_block_sequence_number := 1
    chunk_size := chunk_size
    total_size := 0
    bytes_sent := 0
    memory_write_status := false
    checksums := [] }

/-- Modelled from the spec: the body of `TransferData::transferData(can_id,
transfer_request)` is not under src/ (only its declaration is).  Following
section 4.1 of the spec: the request holds the PCI byte, the service id, the
block sequence number and a non-empty payload, else `IMLOIF`; the sequence
number must equal `expected_block_sequence_number`, else `WBSC` with the
session unchanged; the payload must not exceed `chunk_size`, else `IMLOIF`;
then the checksum is appended, the payload is written at the current offset
through the memory backend `write`, `memory_write_status` takes the result;
on a failed write `GPF` is sent and the sequence number stays; on success
`bytes_sent` advances, the sequence number is incremented (in its 8-bit type)
and the positive response echoes the service id and the sequence number. -/
def transferData (write : Nat → List Nat → Bool) (can_id : Nat)
    (transfer_request : List Nat) (s : TransferSession) (w : World) :
    TransferSession × World :=
  let can_id := RequestTransferExit.reverseIds can_id
  match transfer_request with
  | _pci :: _sid :: block_sequence_number :: payload =>
    if payload = [] then
      (s, NegativeResponse.sendNRC can_id TD_SID NegativeResponse.IMLOIF w)
    else if block_sequence_number ≠ s.expected_block_sequence_number then
      (s, NegativeResponse.sendNRC can_id TD_SID NegativeResponse.WBSC w)
    else if s.chunk_size < payload.length then
      (s, NegativeResponse.sendNRC can_id TD_SID NegativeResponse.IMLOIF w)
    else
      let checksum := computeChecksum payload payload.length
      let written := write s.bytes_sent payload
      let s := { s with checksums := s.checksums ++ [checksum],
                        memory_write_status := written }
      if written then
        ({ s with bytes_sent := s.bytes_sent + payload.length,
                  expected_block_sequence_number :=
                    (s.expected_block_sequence_number + 1) % 256 },
          GenerateFrames.sendFrame can_id [0x02, TD_SID + 0x40, block_sequence_number] w)
      else
        (s, NegativeResponse.sendNRC can_id TD_SID NegativeResponse.GPF w)
  | _ => (s, NegativeResponse.sendNRC can_id TD_SID NegativeResponse.IMLOIF w)

/-- The Transfer-Data request carrying block number `i` and the given payload:
PCI byte, service id, the sequence number as the byte the frame carries, then
the payload. -/
def chunkRequest (i : Nat) (payload : List Nat) : List Nat :=
  (payload.length + 2) % 256 :: TD_SID :: i % 256 :: payload

/-- The requests for the given payloads, numbered in order from `first`. -/
def inOrder : Nat → List (List Nat) → List (List Nat)
  | _, [] => []
  | first, payload :: rest => chunkRequest first payload :: inOrder (first + 1) rest

/-- Submit the requests one after the other to `transferData`. -/
def submitAll (write : Nat → List Nat → Bool) (can_id : Nat) :
    List (List Nat) → TransferSession × World → TransferSession × World
  | [], sw => sw
  | request :: rest, sw =>
    submitAll write can_id rest (transferData write can_id request sw.1 sw.2)

/-- A memory backend that accepts every write. -/
def writeOk : Nat → List Nat → Bool := fun _ _ => true

end TransferData

/-! ## ECU.cpp -/

/-- The members of `ECU` used by `sendNotificationToMCU`: the 8-bit module id
and the socket. -/
structure ECU where
  _module_id : Nat
  _ecu_socket : Int

namespace ECU

/-- Method `ECU::sendNotificationToMCU()`: builds the 16-bit `frame_id` from
the module id and `MCU_ID` and hands it with the data `{0x01, 0xD9}` to
`sendFrame`.  The macro `MCU_ID` is defined outside src/ and is a parameter. -/
def sendNotificationToMCU (MCU_ID : Nat) (self : ECU) (w : World) : World :=
  let data := [0x01, 0xD9]
  let frame_id := ((self._module_id <<< 8) ||| MCU_ID) % 2 ^ 16
  GenerateFrames.sendFrame frame_id data w

end ECU

/-! ## HVACModule.cpp -/

/-- The DID and range macros used by `generateData`.  Their header is not
under src/, so they are parameters. -/
structure HvacConstants where
  MASS_AIR_FLOW_SENSOR : Nat
  AMBIENT_TEMPERATURE_DID : Nat
  CABIN_TEMPERATURE_DID : Nat
  HVAC_SET_TEMPERATURE_DID : Nat
  FAN_SPEED_DID : Nat
  HVAC_MODES_DID : Nat
  HVAC_AMBIENT_TEMPERATURE_MOD : Nat
  HVAC_MIN_AMBIENT_TEMPERATURE : Int
  HVAC_CABIN_TEMPERATURE_MOD : Nat
  HVAC_MIN_CABIN_TEMPERATURE : Int
  HVAC_SET_TEMPERATURE_MOD : Nat
  HVAC_MIN_SET_TEMPERATURE : Int
  HVAC_FAN_SPEED_MOD : Nat
  HVAC_MIN_FAN_SPEED : Int
  HVAC_MODES_MOD : Nat

/-- The state `HVACModule` works on: the static map `default_DID_hvac` (its
entries in iteration order), the contents of `hvac_data.txt`, and the contents
of `old_hvac_data.txt` when that file exists. -/
structure HvacState where
  default_DID_hvac : List (Nat × List Nat)
  hvac_data : List Char
  old_hvac_data : Option (List Char)

namespace HVACModule

/-- One hexadecimal digit, as `std::hex` prints it with or without
`std::uppercase`. -/
def hexChar (upper : Bool) (d : Nat) : Char :=
  if d < 10 then Char.ofNat (48 + d)
  else if upper then Char.ofNat (55 + d) else Char.ofNat (87 + d)

/-- The hexadecimal digits of `n`, most significant first, in front of `acc`. -/
def hexDigits (upper : Bool) : Nat → Nat → List Char → List Char
  | 0, _, acc => acc
  | fuel + 1, n, acc =>
    if n < 16 then hexChar upper n :: acc
    else hexDigits upper fuel (n / 16) (hexChar upper (n % 16) :: acc)

/-- What `std::hex << std::setw(width) << std::setfill('0') << n` puts on a
stream, with `std::uppercase` when `upper`: the hexadecimal digits of `n`,
padded with `0` on the left up to `width`. -/
def formatHex (upper : Bool) (width n : Nat) : List Char :=
  let digits := hexDigits upper (n + 1) n []
  List.replicate (width - digits.length) '0' ++ digits

/-- Helper `to_lowercase`: `std::tolower` on every character. -/
def to_lowercase (str : List Char) : List Char :=
  str.map Char.toLower

/-- The string begins with `needle`. -/
def startsWith : List Char → List Char → Bool
  | _, [] => true
  | [], _ :: _ => false
  | c :: cs, d :: ds => c == d && startsWith cs ds

/-- The test `line.find(needle) != std::string::npos`. -/
def found : List Char → List Char → Bool
  | [], needle => startsWith [] needle
  | c :: cs, needle => startsWith (c :: cs) needle || found cs needle

/-- The lines `std::getline` extracts from the text, in order; `current` is
the line being read, last character first. -/
def getlines : List Char → List Char → List (List Char)
  | [], current => if current = [] then [] else [current.reverse]
  | c :: cs, current =>
    if c = Char.ofNat 10 then current.reverse :: getlines cs []
    else getlines cs (c :: current)

/-- The assignment `default_DID_hvac[did].front() = byte`.  On a key that is
absent `operator[]` inserts an empty vector, and `front()` of an empty vector
is undefined: `none`. -/
def setFront (did byte : Nat) : List (Nat × List Nat) → Option (List (Nat × List Nat))
  | [] => none
  | (key, value) :: rest =>
    if key = did then
      match value with
      | [] => none
      | _ :: tail => some ((key, byte :: tail) :: rest)
    else (setFront did byte rest).map (fun updated => (key, value) :: updated)

/-- The conversion `static_cast<uint8_t>` of an `int`. -/
def toUint8 (x : Int) : Nat := (x % 256).toNat

/-- Method `generateData()`: `rand i` is the value the `i`-th call of
`std::rand()` returns after the seeding. -/
def generateData (c : HvacConstants) (rand : Nat → Nat) (m : List (Nat × List Nat)) :
    Option (List (Nat × List Nat)) := do
  let m ← setFront c.AMBIENT_TEMPERATURE_DID
    (toUint8 (((rand 0 % c.HVAC_AMBIENT_TEMPERATURE_MOD : Nat) : Int)
      + c.HVAC_MIN_AMBIENT_TEMPERATURE)) m
  let m ← setFront c.CABIN_TEMPERATURE_DID
    (toUint8 (((rand 1 % c.HVAC_CABIN_TEMPERATURE_MOD : Nat) : Int)
      + c.HVAC_MIN_CABIN_TEMPERATURE)) m
  let m ← setFront c.HVAC_SET_TEMPERATURE_DID
    (toUint8 (((rand 2 % c.HVAC_SET_TEMPERATURE_MOD : Nat) : Int)
      + c.HVAC_MIN_SET_TEMPERATURE)) m
  let m ← setFront c.FAN_SPEED_DID
    (toUint8 (((rand 3 % c.HVAC_FAN_SPEED_MOD : Nat) : Int) + c.HVAC_MIN_FAN_SPEED)) m
  let m ← setFront c.HVAC_MODES_DID
    (toUint8 ((rand 4 % c.HVAC_MODES_MOD : Nat) : Int)) m
  setFront c.MASS_AIR_FLOW_SENSOR (toUint8 ((rand 5 % 256 : Nat) : Int)) m

/-- The string `value_ss` of `fetchHvacData`: every byte of the value as two
uppercase hexadecimal digits, one after the other. -/
def valueString (value : List Nat) : List Char :=
  value.foldl (fun value_ss byte => value_ss ++ formatHex true 2 byte) []

/-- The inner loop of `fetchHvacData` for one line of the file: the text
appended to `updated_file_contents`, from the first entry of the map whose
DID, in hexadecimal, occurs in the line (case ignored); nothing when no entry
matches. -/
def updatedLine : List (Nat × List Nat) → List Char → List Char
  | [], _ => []
  | pair :: rest, file_line =>
    let did_ss := formatHex true 4 pair.1
    if found (to_lowercase file_line) (to_lowercase did_ss) then
      did_ss ++ [' '] ++ valueString pair.2 ++ [Char.ofNat 10]
    else updatedLine rest file_line

/-- Method `fetchHvacData()`: generates the data, reads `hvac_data.txt`,
rewrites every line that names a DID of the map and writes the result back. -/
def fetchHvacData (c : HvacConstants) (rand : Nat → Nat) (st : HvacState) :
    Option HvacState := do
  let m ← generateData c rand st.default_DID_hvac
  let file_contents := st.hvac_data
  let updated_file_contents := (getlines file_contents []).foldl
    (fun updated file_line => updated ++ updatedLine m file_line) []
  some { st with default_DID_hvac := m, hvac_data := updated_file_contents }

/-- The line the loop of `writeDataToFile` writes for one entry: the DID as 4
hexadecimal digits, a space, every byte as 2 hexadecimal digits followed by a
space, and the end of line. -/
def defaultLine (pair : Nat × List Nat) : List Char :=
  formatHex false 4 pair.1 ++ [' ']
    ++ pair.2.foldl (fun line byte => line ++ formatHex false 2 byte ++ [' ']) []
    ++ [Char.ofNat 10]

/-- Method `writeDataToFile()`, with `hvac_data.txt` opened successfully: the
contents of `old_hvac_data.txt` are moved into it when that file exists;
otherwise the default lines are written and `fetchHvacData()` is called. -/
def writeDataToFile (c : HvacConstants) (rand : Nat → Nat) (st : HvacState) :
    Option HvacState :=
  match st.old_hvac_data with
  | some original_file_contents =>
    some { st with hvac_data := original_file_contents, old_hvac_data := none }
  | none =>
    let written := st.default_DID_hvac.foldl (fun file pair => file ++ defaultLine pair) []
    fetchHvacData c rand { st with hvac_data := written }

/-- The persisted layout in the words of the spec: a line is
`<4-hex-digit DID> <space-separated hex bytes>`, the 4-digit key, one space,
then every byte as two hexadecimal digits with a space between consecutive
bytes. -/
def persistedLayout (upper : Bool) (did : Nat) (value : List Nat) : List Char :=
  formatHex upper 4 did ++ [' '] ++ List.intercalate [' '] (value.map (formatHex upper 2))

/-- Sample values for the macros of `generateData` (their header is not under
src/), in line with the comments of that method: distinct DIDs, ambient
temperature up to 50, cabin temperature up to 30, set temperature from 16 to
25, fan speed up to 100. -/
def sampleHvacConstants : HvacConstants :=
  { MASS_AIR_FLOW_SENSOR := 0x0110
    AMBIENT_TEMPERATURE_DID := 0x0120
    CABIN_TEMPERATURE_DID := 0x0130
    HVAC_SET_TEMPERATURE_DID := 0x0140
    FAN_SPEED_DID := 0x0150
    HVAC_MODES_DID := 0x0160
    HVAC_AMBIENT_TEMPERATURE_MOD := 51
    HVAC_MIN_AMBIENT_TEMPERATURE := 0
    HVAC_CABIN_TEMPERATURE_MOD := 31
    HVAC_MIN_CABIN_TEMPERATURE := 0
    HVAC_SET_TEMPERATURE_MOD := 10
    HVAC_MIN_SET_TEMPERATURE := 16
    HVAC_FAN_SPEED_MOD := 101
    HVAC_MIN_FAN_SPEED := 0
    HVAC_MODES_MOD := 256 }

/-- A content of `default_DID_hvac` with one byte per DID, as the initializer
stores it: the six sensor DIDs of `sampleHvacConstants`, the OTA status
`0xE001` and the software version `0xF1A2` (its `#else` value `0x00`).  The
macro `DEFAULT_DID_VALUE` is defined outside src/; `0x00` stands for it.  The
iteration order of the `unordered_map` is unspecified; the entries are listed
in one possible order. -/
def oneByteMap : List (Nat × List Nat) :=
  [ (0x0110, [0x00]), (0x0120, [0x00]), (0x0130, [0x00]), (0x0140, [0x00]),
    (0x0150, [0x00]), (0x0160, [0x00]), (0xE001, [0x00]), (0xF1A2, [0x00]) ]

/-- A content of the type of `default_DID_hvac` that its initializer does not
produce: as `oneByteMap`, but with the two bytes `01 02` under `0xF1A2`.  It is
the case of a value longer than one byte. -/
def twoByteMap : List (Nat × List Nat) :=
  [ (0x0110, [0x00]), (0x0120, [0x00]), (0x0130, [0x00]), (0x0140, [0x00]),
    (0x0150, [0x00]), (0x0160, [0x00]), (0xE001, [0x00]), (0xF1A2, [0x01, 0x02]) ]

/-- The character is a hexadecimal digit: `0`-`9`, `A`-`F` or `a`-`f`. -/
def isHexDigit (ch : Char) : Bool :=
  (48 ≤ ch.toNat && ch.toNat ≤ 57) || (65 ≤ ch.toNat && ch.toNat ≤ 70)
    || (97 ≤ ch.toNat && ch.toNat ≤ 102)

/-- The text of a file whose lines are the persisted layout, in the words of
the spec, of the given entries, one line per entry. -/
def persistedLines : List (Nat × List Nat) → List Char
  | [] => []
  | pair :: rest =>
    persistedLayout true pair.1 pair.2 ++ [Char.ofNat 10] ++ persistedLines rest

/-- Every key of the map is a 16-bit DID and every value is one byte long. -/
def OneByte (m : List (Nat × List Nat)) : Prop :=
  ∀ p ∈ m, p.1 < 65536 ∧ p.2.length = 1 ∧ ∀ b ∈ p.2, b < 256

/-- The map has an entry under the DID. -/
def HasKey (did : Nat) (m : List (Nat × List Nat)) : Prop :=
  ∃ p ∈ m, p.1 = did

/-- A sample sequence of `std::rand()` results. -/
def sampleRand : Nat → Nat := fun i => 1000 + 37 * i

end HVACModule

/-! ## Auxiliary facts -/

namespace RequestTransferExit

/-- The reversal in arithmetic form: the low byte becomes the high byte of a
16-bit value and the second byte becomes the low byte. -/
theorem reverseIds_eq (a : Nat) : reverseIds a = (a % 256) * 256 + (a / 256) % 256 := by
  unfold reverseIds
  have hand : ∀ x : Nat, x &&& 0xFF = x % 256 := fun x => by
    have := Nat.and_pow_two_sub_one_eq_mod x 8
    simpa using this
  have hor : ∀ x y : Nat, y < 256 → (x <<< 8) ||| y = x * 256 + y := fun x y hy => by
    have := Nat.mul_add_lt_is_or (i := 8) (by simpa using hy) x
    rw [Nat.shiftLeft_eq, Nat.mul_comm, ← this]
  have hshr : a >>> 8 = a / 256 := by
    rw [Nat.shiftRight_eq_div_pow]
  simp only [hand, hshr, Nat.mod_mod]
  rw [hor _ _ (Nat.mod_lt _ (by norm_num))]
  have h1 : a % 256 < 256 := Nat.mod_lt _ (by norm_num)
  have h2 : a / 256 % 256 < 256 := Nat.mod_lt _ (by norm_num)
  apply Nat.mod_eq_of_lt
  omega

/-- A packed address `(s << 8) | r` in arithmetic form. -/
theorem pack_eq (s r : Nat) (hr : r < 256) : (s <<< 8) ||| r = s * 256 + r := by
  have := Nat.mul_add_lt_is_or (i := 8) (by simpa using hr) s
  rw [Nat.shiftLeft_eq, Nat.mul_comm, ← this]

/-- The handler on a request shorter than 3 bytes. -/
theorem request_short (k : OtaConstants) (self : RequestTransferExit) (can_id : Nat)
    (req : List Nat) (w : World) (h : req.length < 3) :
    requestTRansferExitRequest k self can_id req w
      = some (NegativeResponse.sendNRC (reverseIds can_id) RTES_SERVICE_ID
          NegativeResponse.IMLOIF w) := by
  simp [requestTRansferExitRequest, h]

/-- The handler on a request of at least 3 bytes when the stored status is
`PROCESSING_TRANSFER_COMPLETE`. -/
theorem request_complete (k : OtaConstants) (self : RequestTransferExit) (can_id : Nat)
    (req : List Nat) (w : World) (h : 3 ≤ req.length)
    (hst : otaStatus k can_id w = some k.PROCESSING_TRANSFER_COMPLETE) :
    requestTRansferExitRequest k self can_id req w
      = some (FileManager.setDidValue k.OTA_UPDATE_STATUS_DID [k.READY] can_id
          (GenerateFrames.sendFrame (reverseIds can_id) [0x02, 0x77, req[2]] w)) := by
  unfold otaStatus at hst
  unfold requestTRansferExitRequest
  have hlen : ¬ req.length < 3 := by omega
  cases hv : FileManager.getDidValue k.OTA_UPDATE_STATUS_DID can_id w with
  | nil => simp [hv] at hst
  | cons v rest =>
    simp only [hv, List.head?_cons, Option.some.injEq] at hst
    simp [hlen, hv, hst]

/-- The handler on a request of at least 3 bytes when the stored status is
some other value. -/
theorem request_other (k : OtaConstants) (self : RequestTransferExit) (can_id : Nat)
    (req : List Nat) (w : World) (v : Nat) (h : 3 ≤ req.length)
    (hst : otaStatus k can_id w = some v) (hv : v ≠ k.PROCESSING_TRANSFER_COMPLETE) :
    requestTRansferExitRequest k self can_id req w
      = some (FileManager.setDidValue k.OTA_UPDATE_STATUS_DID [k.IDLE] can_id
          (NegativeResponse.sendNRC (reverseIds can_id) RTES_SERVICE_ID
            NegativeResponse.RSE w)) := by
  unfold otaStatus at hst
  unfold requestTRansferExitRequest
  have hlen : ¬ req.length < 3 := by omega
  cases hg : FileManager.getDidValue k.OTA_UPDATE_STATUS_DID can_id w with
  | nil => simp [hg] at hst
  | cons u rest =>
    simp only [hg, List.head?_cons, Option.some.injEq] at hst
    subst hst
    simp [hlen, hg, hv]

/-- Whatever the stored status, the handler returns and its single response
is addressed to the reversed identifier. -/
theorem request_address (k : OtaConstants) (self : RequestTransferExit) (can_id : Nat)
    (req : List Nat) (w : World) (v : Nat) (hst : otaStatus k can_id w = some v) :
    ∃ w1 x, requestTRansferExitRequest k self can_id req w = some w1 ∧
      w1.sent = w.sent ++ [x] ∧ x.address = reverseIds can_id := by
  by_cases h : req.length < 3
  · exact ⟨_, _, request_short k self can_id req w h, rfl, rfl⟩
  · have h3 : 3 ≤ req.length := by omega
    by_cases hv : v = k.PROCESSING_TRANSFER_COMPLETE
    · subst hv
      exact ⟨_, _, request_complete k self can_id req w h3 hst, rfl, rfl⟩
    · exact ⟨_, _, request_other k self can_id req w v h3 hst hv, rfl, rfl⟩

/-- The reversal of a packed address `(s << 8) | r` is `(r << 8) | s`. -/
theorem reverseIds_pack (s r : Nat) (hs : s < 256) (hr : r < 256) :
    reverseIds ((s <<< 8) ||| r) = (r <<< 8) ||| s := by
  rw [reverseIds_eq, pack_eq s r hr, pack_eq r s hs]
  omega

/-- The low 16 bits of an identifier in arithmetic form. -/
theorem and_ffff_eq (a : Nat) : a &&& 0xFFFF = a % 65536 := by
  have := Nat.and_pow_two_sub_one_eq_mod a 16
  simpa using this

/-- The reversed identifier fits in 16 bits. -/
theorem reverseIds_lt (a : Nat) : reverseIds a < 2 ^ 16 := by
  rw [reverseIds_eq]
  omega

/-- Applying the reversal twice keeps the low 16 bits of the identifier. -/
theorem reverseIds_twice (a : Nat) : reverseIds (reverseIds a) = a % 65536 := by
  rw [reverseIds_eq, reverseIds_eq]
  have h1 : a / 256 % 256 < 256 := Nat.mod_lt _ (by norm_num)
  have h2 : (a % 256 * 256 + a / 256 % 256) % 256 = a / 256 % 256 := by omega
  have h3 : (a % 256 * 256 + a / 256 % 256) / 256 = a % 256 := by omega
  rw [h2, h3]
  omega

/-- The outcome of the handler on a request of at least 3 bytes, by the stored
status: the single response goes to the reversed identifier and the store is
written under the identifier the handler was called with. -/
theorem request_long (k : OtaConstants) (self : RequestTransferExit) (can_id : Nat)
    (req : List Nat) (w : World) (v : Nat) (h : 3 ≤ req.length)
    (hst : otaStatus k can_id w = some v) :
    ∃ w1 x, requestTRansferExitRequest k self can_id req w = some w1 ∧
      w1.sent = w.sent ++ [x] ∧ x.address = reverseIds can_id ∧
      x = (if v = k.PROCESSING_TRANSFER_COMPLETE
            then Sent.frame (reverseIds can_id) [0x02, 0x77, req[2]]
            else Sent.nrc (reverseIds can_id) 0x37 0x24) ∧
      w1.store = (FileManager.setDidValue k.OTA_UPDATE_STATUS_DID
          [if v = k.PROCESSING_TRANSFER_COMPLETE then k.READY else k.IDLE] can_id w).store := by
  by_cases hv : v = k.PROCESSING_TRANSFER_COMPLETE
  · subst hv
    refine ⟨_, _, request_complete k self can_id req w h hst, rfl, rfl, ?_, ?_⟩
    · simp
    · simp [FileManager.setDidValue, GenerateFrames.sendFrame]
  · refine ⟨_, _, request_other k self can_id req w v h hst hv, rfl, rfl, ?_, ?_⟩
    · simp [hv, RTES_SERVICE_ID, NegativeResponse.RSE]
    · simp [hv, FileManager.setDidValue, NegativeResponse.sendNRC]

/-- Reading the status back after it was written. -/
theorem otaStatus_setDidValue (k : OtaConstants) (can_id b : Nat) (w : World) :
    otaStatus k can_id (FileManager.setDidValue k.OTA_UPDATE_STATUS_DID [b] can_id w)
      = some b := by
  simp [otaStatus, FileManager.getDidValue, FileManager.setDidValue]

end RequestTransferExit

namespace TransferData

/-- An in-order chunk with a non-empty payload within `chunk_size` whose write
succeeds is accepted: checksum appended, counters advanced. -/
theorem transferData_accept (write : Nat → List Nat → Bool) (can_id i : Nat)
    (p : List Nat) (s : TransferSession) (w : World) (hne : p ≠ [])
    (hseq : s.expected_block_sequence_number = i % 256) (hlen : p.length ≤ s.chunk_size)
    (hw : write s.bytes_sent p = true) :
    (transferData write can_id (chunkRequest i p) s w).1
      = { s with checksums := s.checksums ++ [computeChecksum p p.length],
                 memory_write_status := true,
                 bytes_sent := s.bytes_sent + p.length,
                 expected_block_sequence_number := (i + 1) % 256 } := by
  have hlen2 : ¬ s.chunk_size < p.length := by omega
  have hmod : (i % 256 + 1) % 256 = (i + 1) % 256 := by omega
  simp [transferData, chunkRequest, hne, hseq, hlen2, hw, hmod]

/-- Chunks submitted in order from block number `i` to a session expecting
`i`: the counter ends at `i` plus the number of chunks, in 8 bits, and one
checksum per chunk has been appended. -/
theorem submitAll_inOrder (write : Nat → List Nat → Bool) (can_id : Nat)
    (hw : ∀ offset p, write offset p = true) (payloads : List (List Nat)) :
    ∀ (i : Nat) (s : TransferSession) (w : World),
      (∀ p ∈ payloads, p ≠ [] ∧ p.length ≤ s.chunk_size) →
      s.expected_block_sequence_number = i % 256 →
      (submitAll write can_id (inOrder i payloads) (s, w)).1.expected_block_sequence_number
          = (i + payloads.length) % 256 ∧
        (submitAll write can_id (inOrder i payloads) (s, w)).1.checksums
          = s.checksums ++ payloads.map (fun p => computeChecksum p p.length) := by
  induction payloads with
  | nil =>
    intro i s w _ hseq
    simp [inOrder, submitAll, hseq]
  | cons p rest ih =>
    intro i s w hp hseq
    have hp0 := hp p (List.mem_cons_self _ _)
    have hacc := transferData_accept write can_id i p s w hp0.1 hseq hp0.2 (hw _ _)
    have hstep : ∀ sw : TransferSession × World,
        submitAll write can_id (inOrder i (p :: rest)) (s, w)
          = submitAll write can_id (inOrder (i + 1) rest)
              (transferData write can_id (chunkRequest i p) s w) := fun _ => rfl
    rw [hstep (s, w)]
    have hrest := ih (i + 1) (transferData write can_id (chunkRequest i p) s w).1
      (transferData write can_id (chunkRequest i p) s w).2
      (by
        intro q hq
        rw [hacc]
        exact hp q (List.mem_cons_of_mem _ hq))
      (by rw [hacc])
    refine ⟨?_, ?_⟩
    · rw [hrest.1]
      simp only [List.length_cons]
      congr 1
      omega
    · rw [hrest.2, hacc]
      simp

end TransferData

namespace HVACModule

/-- A hexadecimal digit is printed as a hexadecimal digit character. -/
theorem hexChar_isHex (upper : Bool) (d : Nat) (h : d < 16) :
    isHexDigit (hexChar upper d) = true := by
  interval_cases d <;> cases upper <;> decide

/-- The digits of a number below `16 ^ (k + 1)` are at most `k + 1`. -/
theorem hexDigits_length_le (upper : Bool) :
    ∀ (k fuel n : Nat) (acc : List Char), n < 16 ^ (k + 1) →
      (hexDigits upper fuel n acc).length ≤ acc.length + (k + 1) := by
  intro k
  induction k with
  | zero =>
    intro fuel n acc hn
    cases fuel with
    | zero => simp [hexDigits]
    | succ fuel =>
      have h16 : n < 16 := by simpa using hn
      simp [hexDigits, h16]
  | succ k ih =>
    intro fuel n acc hn
    cases fuel with
    | zero =>
      simp [hexDigits]
    | succ fuel =>
      by_cases h16 : n < 16
      · simp [hexDigits, h16]
      · have hdiv : n / 16 < 16 ^ (k + 1) := by
          rw [Nat.div_lt_iff_lt_mul (by norm_num)]
          calc n < 16 ^ (k + 1 + 1) := hn
            _ = 16 ^ (k + 1) * 16 := by ring
        have := ih fuel (n / 16) (hexChar upper (n % 16) :: acc) hdiv
        simp only [hexDigits, h16, if_false]
        simp only [List.length_cons] at this
        omega

/-- Every character of the digits is a hexadecimal digit. -/
theorem hexDigits_isHex (upper : Bool) :
    ∀ (fuel n : Nat) (acc : List Char), (∀ ch ∈ acc, isHexDigit ch = true) →
      ∀ ch ∈ hexDigits upper fuel n acc, isHexDigit ch = true := by
  intro fuel
  induction fuel with
  | zero =>
    intro n acc hacc ch hch
    exact hacc ch (by simpa [hexDigits] using hch)
  | succ fuel ih =>
    intro n acc hacc ch hch
    by_cases h16 : n < 16
    · simp only [hexDigits, h16, if_true, List.mem_cons] at hch
      rcases hch with rfl | hch
      · exact hexChar_isHex upper n h16
      · exact hacc ch hch
    · simp only [hexDigits, h16, if_false] at hch
      refine ih (n / 16) (hexChar upper (n % 16) :: acc) ?_ ch hch
      intro c hc
      rcases List.mem_cons.mp hc with rfl | hc
      · exact hexChar_isHex upper (n % 16) (Nat.mod_lt _ (by norm_num))
      · exact hacc c hc

/-- A number below `16 ^ (k + 1)` printed with width `k + 1` takes exactly
`k + 1` characters. -/
theorem formatHex_length (upper : Bool) (k n : Nat) (hn : n < 16 ^ (k + 1)) :
    (formatHex upper (k + 1) n).length = k + 1 := by
  have h := hexDigits_length_le upper k (n + 1) n [] hn
  simp only [List.length_nil, Nat.zero_add] at h
  simp only [formatHex, List.length_append, List.length_replicate]
  omega

/-- Every character of a printed number is a hexadecimal digit. -/
theorem formatHex_isHex (upper : Bool) (width n : Nat) :
    ∀ ch ∈ formatHex upper width n, isHexDigit ch = true := by
  intro ch hch
  simp only [formatHex, List.mem_append] at hch
  rcases hch with hch | hch
  · rw [List.eq_of_mem_replicate hch]
    decide
  · exact hexDigits_isHex upper (n + 1) n [] (fun _ h => absurd h (List.not_mem_nil _)) ch hch

/-- The conversion to `uint8_t` yields a byte. -/
theorem toUint8_lt (x : Int) : toUint8 x < 256 := by
  unfold toUint8
  omega

/-- Assigning a byte to the front of an entry that is present succeeds and
keeps the keys and the one-byte shape of the map. -/
theorem setFront_oneByte (did byte : Nat) (hb : byte < 256) :
    ∀ m : List (Nat × List Nat), OneByte m → HasKey did m →
      ∃ m1, setFront did byte m = some m1 ∧ OneByte m1 ∧
        ∀ d, HasKey d m → HasKey d m1 := by
  intro m
  induction m with
  | nil =>
    intro _ hk
    obtain ⟨p, hp, _⟩ := hk
    exact absurd hp (List.not_mem_nil _)
  | cons e rest ih =>
    intro hone hk
    obtain ⟨key, value⟩ := e
    have he := hone (key, value) (List.mem_cons_self _ _)
    have hrest : OneByte rest := fun p hp => hone p (List.mem_cons_of_mem _ hp)
    by_cases hkey : key = did
    · obtain ⟨v, hv⟩ := List.length_eq_one.mp he.2.1
      simp only at hv
      subst hv
      refine ⟨(key, [byte]) :: rest, by simp [setFront, hkey], ?_, ?_⟩
      · intro p hp
        rcases List.mem_cons.mp hp with rfl | hp
        · exact ⟨he.1, rfl, by simpa using hb⟩
        · exact hrest p hp
      · intro d hd
        obtain ⟨p, hp, hpd⟩ := hd
        rcases List.mem_cons.mp hp with rfl | hp
        · exact ⟨(key, [byte]), List.mem_cons_self _ _, hpd⟩
        · exact ⟨p, List.mem_cons_of_mem _ hp, hpd⟩
    · have hk2 : HasKey did rest := by
        obtain ⟨p, hp, hpd⟩ := hk
        rcases List.mem_cons.mp hp with rfl | hp
        · exact absurd hpd hkey
        · exact ⟨p, hp, hpd⟩
      obtain ⟨m1, hset, hone1, hkeys1⟩ := ih hrest hk2
      refine ⟨(key, value) :: m1, by simp [setFront, hkey, hset], ?_, ?_⟩
      · intro p hp
        rcases List.mem_cons.mp hp with rfl | hp
        · exact he
        · exact hone1 p hp
      · intro d hd
        obtain ⟨p, hp, hpd⟩ := hd
        rcases List.mem_cons.mp hp with rfl | hp
        · exact ⟨(key, value), List.mem_cons_self _ _, hpd⟩
        · obtain ⟨q, hq, hqd⟩ := hkeys1 d ⟨p, hp, hpd⟩
          exact ⟨q, List.mem_cons_of_mem _ hq, hqd⟩

/-- On a one-byte map that holds the six DIDs it assigns, `generateData`
succeeds and the map keeps its one-byte shape. -/
theorem generateData_oneByte (c : HvacConstants) (rand : Nat → Nat)
    (m : List (Nat × List Nat)) (hone : OneByte m)
    (h1 : HasKey c.AMBIENT_TEMPERATURE_DID m) (h2 : HasKey c.CABIN_TEMPERATURE_DID m)
    (h3 : HasKey c.HVAC_SET_TEMPERATURE_DID m) (h4 : HasKey c.FAN_SPEED_DID m)
    (h5 : HasKey c.HVAC_MODES_DID m) (h6 : HasKey c.MASS_AIR_FLOW_SENSOR m) :
    ∃ m1, generateData c rand m = some m1 ∧ OneByte m1 := by
  obtain ⟨a1, e1, o1, k1⟩ := setFront_oneByte c.AMBIENT_TEMPERATURE_DID _
    (toUint8_lt (((rand 0 % c.HVAC_AMBIENT_TEMPERATURE_MOD : Nat) : Int)
      + c.HVAC_MIN_AMBIENT_TEMPERATURE)) m hone h1
  obtain ⟨a2, e2, o2, k2⟩ := setFront_oneByte c.CABIN_TEMPERATURE_DID _
    (toUint8_lt (((rand 1 % c.HVAC_CABIN_TEMPERATURE_MOD : Nat) : Int)
      + c.HVAC_MIN_CABIN_TEMPERATURE)) a1 o1 (k1 _ h2)
  obtain ⟨a3, e3, o3, k3⟩ := setFront_oneByte c.HVAC_SET_TEMPERATURE_DID _
    (toUint8_lt (((rand 2 % c.HVAC_SET_TEMPERATURE_MOD : Nat) : Int)
      + c.HVAC_MIN_SET_TEMPERATURE)) a2 o2 (k2 _ (k1 _ h3))
  obtain ⟨a4, e4, o4, k4⟩ := setFront_oneByte c.FAN_SPEED_DID _
    (toUint8_lt (((rand 3 % c.HVAC_FAN_SPEED_MOD : Nat) : Int) + c.HVAC_MIN_FAN_SPEED))
    a3 o3 (k3 _ (k2 _ (k1 _ h4)))
  obtain ⟨a5, e5, o5, k5⟩ := setFront_oneByte c.HVAC_MODES_DID _
    (toUint8_lt ((rand 4 % c.HVAC_MODES_MOD : Nat) : Int)) a4 o4
    (k4 _ (k3 _ (k2 _ (k1 _ h5))))
  obtain ⟨a6, e6, o6, _⟩ := setFront_oneByte c.MASS_AIR_FLOW_SENSOR _
    (toUint8_lt ((rand 5 % 256 : Nat) : Int)) a5 o5
    (k5 _ (k4 _ (k3 _ (k2 _ (k1 _ h6)))))
  refine ⟨a6, ?_, o6⟩
  unfold generateData
  rw [e1]
  simp only [Option.bind_eq_bind, Option.some_bind]
  rw [e2]
  simp only [Option.some_bind]
  rw [e3]
  simp only [Option.some_bind]
  rw [e4]
  simp only [Option.some_bind]
  rw [e5]
  simp only [Option.some_bind]
  exact e6

/-- For a one-byte value the text the loop writes for an entry is the
persisted layout of the entry followed by the end of line. -/
theorem updatedLine_oneByte (m : List (Nat × List Nat)) (hone : OneByte m)
    (file_line : List Char) :
    updatedLine m file_line = [] ∨
      ∃ p ∈ m, updatedLine m file_line
        = persistedLayout true p.1 p.2 ++ [Char.ofNat 10] := by
  induction m with
  | nil => exact Or.inl rfl
  | cons e rest ih =>
    have hrest : OneByte rest := fun p hp => hone p (List.mem_cons_of_mem _ hp)
    by_cases hf : found (to_lowercase file_line) (to_lowercase (formatHex true 4 e.1)) = true
    · right
      refine ⟨e, List.mem_cons_self _ _, ?_⟩
      obtain ⟨b, hb⟩ := List.length_eq_one.mp (hone e (List.mem_cons_self _ _)).2.1
      simp [updatedLine, hf, hb, persistedLayout, valueString, List.intercalate]
    · rcases ih hrest with h | ⟨p, hp, h⟩
      · left
        simp [updatedLine, hf, h]
      · right
        exact ⟨p, List.mem_cons_of_mem _ hp, by simp [updatedLine, hf, h]⟩

/-- The text accumulated over the lines of the file is made of persisted
layout lines of entries of the map. -/
theorem updated_contents_oneByte (m : List (Nat × List Nat)) (hone : OneByte m) :
    ∀ (lines : List (List Char)) (acc : List Char),
      ∃ written, (∀ p ∈ written, p ∈ m) ∧
        lines.foldl (fun updated file_line => updated ++ updatedLine m file_line) acc
          = acc ++ persistedLines written := by
  intro lines
  induction lines with
  | nil =>
    intro acc
    exact ⟨[], fun _ h => absurd h (List.not_mem_nil _), by simp [persistedLines]⟩
  | cons line rest ih =>
    intro acc
    obtain ⟨written, hmem, hfold⟩ := ih (acc ++ updatedLine m line)
    rcases updatedLine_oneByte m hone line with h | ⟨p, hp, h⟩
    · refine ⟨written, hmem, ?_⟩
      rw [List.foldl_cons, hfold, h, List.append_nil]
    · refine ⟨p :: written, ?_, ?_⟩
      · intro q hq
        rcases List.mem_cons.mp hq with rfl | hq
        · exact hp
        · exact hmem q hq
      · rw [List.foldl_cons, hfold, h]
        simp [persistedLines]

end HVACModule

/-! ## Transfer-Exit: the claims -/

namespace RequestTransferExit

/-- C1: for every request of at least 3 bytes and every request address, when
the stored OTA status is `PROCESSING_TRANSFER_COMPLETE` the handler sends the
positive response `[0x02, 0x77, request[2]]` (and nothing else), where `0x77`
is the service id `0x37` plus the response offset `0x40`, and afterwards the
stored OTA status is `READY`. -/
theorem transfer_exit_positive (k : OtaConstants) (self : RequestTransferExit)
    (can_id : Nat) (req : List Nat) (w : World) (h : 3 ≤ req.length)
    (hst : otaStatus k can_id w = some k.PROCESSING_TRANSFER_COMPLETE) :
    ∃ w1, requestTRansferExitRequest k self can_id req w = some w1 ∧
      w1.sent = w.sent ++ [Sent.frame (reverseIds can_id) [0x02, 0x77, req[2]]] ∧
      0x77 = RTES_SERVICE_ID + 0x40 ∧
      otaStatus k can_id w1 = some k.READY := by
  refine ⟨_, request_complete k self can_id req w h hst, rfl, rfl, ?_⟩
  exact otaStatus_setDidValue k can_id k.READY _

/-- Witness for C1: address `0x1002`, request `[0x02, 0x37, 0x05]`, stored
status `PROCESSING_TRANSFER_COMPLETE`. -/
theorem transfer_exit_positive_witness :
    ∃ w1, requestTRansferExitRequest sampleConstants (ctor 3) 0x1002 [0x02, 0x37, 0x05]
        (freshWorld 0x31) = some w1 ∧
      w1.sent = (freshWorld 0x31).sent
        ++ [Sent.frame (reverseIds 0x1002) [0x02, 0x77, [0x02, 0x37, 0x05][2]]] ∧
      0x77 = RTES_SERVICE_ID + 0x40 ∧
      otaStatus sampleConstants 0x1002 w1 = some sampleConstants.READY :=
  transfer_exit_positive sampleConstants (ctor 3) 0x1002 [0x02, 0x37, 0x05] (freshWorld 0x31)
    (by decide) rfl

/-- C2: for every request of at least 3 bytes, when the stored OTA status is
any value other than `PROCESSING_TRANSFER_COMPLETE` the handler sends a
negative response for service `0x37` with NRC `RSE = 0x24`, sends no positive
response, and afterwards the stored OTA status is `IDLE`. -/
theorem transfer_exit_sequence_error (k : OtaConstants) (self : RequestTransferExit)
    (can_id : Nat) (req : List Nat) (w : World) (v : Nat) (h : 3 ≤ req.length)
    (hst : otaStatus k can_id w = some v) (hv : v ≠ k.PROCESSING_TRANSFER_COMPLETE) :
    ∃ w1, requestTRansferExitRequest k self can_id req w = some w1 ∧
      w1.sent = w.sent ++ [Sent.nrc (reverseIds can_id) 0x37 0x24] ∧
      (∀ x ∈ w1.sent.drop w.sent.length, x.isPositive = false) ∧
      otaStatus k can_id w1 = some k.IDLE := by
  refine ⟨_, request_other k self can_id req w v h hst hv, rfl, ?_, ?_⟩
  · intro x hx
    have hs : (FileManager.setDidValue k.OTA_UPDATE_STATUS_DID [k.IDLE] can_id
        (NegativeResponse.sendNRC (reverseIds can_id) RTES_SERVICE_ID
          NegativeResponse.RSE w)).sent
        = w.sent ++ [Sent.nrc (reverseIds can_id) 0x37 0x24] := rfl
    rw [hs, List.drop_left] at hx
    simp only [List.mem_singleton] at hx
    subst hx
    rfl
  · exact otaStatus_setDidValue k can_id k.IDLE _

/-- Witness for C2: the stored status is `IDLE`. -/
theorem transfer_exit_sequence_error_witness :
    ∃ w1, requestTRansferExitRequest sampleConstants (ctor 3) 0x1002 [0x02, 0x37, 0x05]
        (freshWorld 0x00) = some w1 ∧
      w1.sent = (freshWorld 0x00).sent ++ [Sent.nrc (reverseIds 0x1002) 0x37 0x24] ∧
      (∀ x ∈ w1.sent.drop (freshWorld 0x00).sent.length, x.isPositive = false) ∧
      otaStatus sampleConstants 0x1002 w1 = some sampleConstants.IDLE :=
  transfer_exit_sequence_error sampleConstants (ctor 3) 0x1002 [0x02, 0x37, 0x05]
    (freshWorld 0x00) 0x00 (by decide) rfl (by decide)

/-- C3: for every request of fewer than 3 bytes (the empty request included)
and every stored OTA status, the handler sends a negative response for service
`0x37` with NRC `IMLOIF = 0x13` and no other frame. -/
theorem transfer_exit_short_request (k : OtaConstants) (self : RequestTransferExit)
    (can_id : Nat) (req : List Nat) (w : World) (h : req.length < 3) :
    ∃ w1, requestTRansferExitRequest k self can_id req w = some w1 ∧
      w1.sent = w.sent ++ [Sent.nrc (reverseIds can_id) 0x37 0x13] :=
  ⟨_, request_short k self can_id req w h, rfl⟩

/-- Witness for C3: the empty request. -/
theorem transfer_exit_short_request_witness :
    ∃ w1, requestTRansferExitRequest sampleConstants (ctor 3) 0x1002 [] (freshWorld 0x31)
        = some w1 ∧
      w1.sent = (freshWorld 0x31).sent ++ [Sent.nrc (reverseIds 0x1002) 0x37 0x13] :=
  transfer_exit_short_request sampleConstants (ctor 3) 0x1002 [] (freshWorld 0x31) (by decide)

/-- C4, counterexample: with the stored status `PROCESSING_TRANSFER_COMPLETE`,
handling the request `[0x02, 0x37, 0x00]` once leaves the status `READY`, and
handling it a second time leaves `IDLE`, which differs. -/
theorem transfer_exit_not_idempotent :
    ∃ w1 w2,
      requestTRansferExitRequest sampleConstants (ctor 3) 0x1002 [0x02, 0x37, 0x00]
        (freshWorld 0x31) = some w1 ∧
      requestTRansferExitRequest sampleConstants (ctor 3) 0x1002 [0x02, 0x37, 0x00] w1
        = some w2 ∧
      otaStatus sampleConstants 0x1002 w1 = some 0x40 ∧
      otaStatus sampleConstants 0x1002 w2 = some 0x00 ∧
      otaStatus sampleConstants 0x1002 w2 ≠ otaStatus sampleConstants 0x1002 w1 :=
  ⟨_, _, rfl, rfl, rfl, rfl, by decide⟩

/-- C4, amended: for every request of at least 3 bytes, with `IDLE` and `READY`
both different from `PROCESSING_TRANSFER_COMPLETE`: when the stored status is
not `PROCESSING_TRANSFER_COMPLETE`, handling the request once leaves `IDLE` and
handling it twice leaves `IDLE` too; when the stored status is
`PROCESSING_TRANSFER_COMPLETE`, the first handling leaves `READY` and the
second one answers with `RSE` and leaves `IDLE`. -/
theorem transfer_exit_twice (k : OtaConstants) (self : RequestTransferExit)
    (can_id : Nat) (req : List Nat) (w : World) (v : Nat) (h : 3 ≤ req.length)
    (hst : otaStatus k can_id w = some v)
    (hIdle : k.IDLE ≠ k.PROCESSING_TRANSFER_COMPLETE)
    (hReady : k.READY ≠ k.PROCESSING_TRANSFER_COMPLETE) :
    ∃ w1 w2, requestTRansferExitRequest k self can_id req w = some w1 ∧
      requestTRansferExitRequest k self can_id req w1 = some w2 ∧
      otaStatus k can_id w2 = some k.IDLE ∧
      w2.sent = w1.sent ++ [Sent.nrc (reverseIds can_id) 0x37 0x24] ∧
      (v ≠ k.PROCESSING_TRANSFER_COMPLETE → otaStatus k can_id w1 = some k.IDLE) ∧
      (v = k.PROCESSING_TRANSFER_COMPLETE → otaStatus k can_id w1 = some k.READY) := by
  by_cases hv : v = k.PROCESSING_TRANSFER_COMPLETE
  · subst hv
    have h1 := request_complete k self can_id req w h hst
    have hs1 := otaStatus_setDidValue k can_id k.READY
      (GenerateFrames.sendFrame (reverseIds can_id) [0x02, 0x77, req[2]] w)
    have h2 := request_other k self can_id req _ k.READY h hs1 hReady
    exact ⟨_, _, h1, h2, otaStatus_setDidValue k can_id k.IDLE _, rfl,
      fun hne => absurd rfl hne, fun _ => hs1⟩
  · have h1 := request_other k self can_id req w v h hst hv
    have hs1 := otaStatus_setDidValue k can_id k.IDLE
      (NegativeResponse.sendNRC (reverseIds can_id) RTES_SERVICE_ID NegativeResponse.RSE w)
    have h2 := request_other k self can_id req _ k.IDLE h hs1 hIdle
    exact ⟨_, _, h1, h2, otaStatus_setDidValue k can_id k.IDLE _, rfl,
      fun _ => hs1, fun he => absurd he hv⟩

/-- Witness for the amended C4: stored status `PROCESSING_TRANSFER_COMPLETE`. -/
theorem transfer_exit_twice_witness :
    ∃ w1 w2, requestTRansferExitRequest sampleConstants (ctor 3) 0x1002 [0x02, 0x37, 0x00]
        (freshWorld 0x31) = some w1 ∧
      requestTRansferExitRequest sampleConstants (ctor 3) 0x1002 [0x02, 0x37, 0x00] w1
        = some w2 ∧
      otaStatus sampleConstants 0x1002 w2 = some sampleConstants.IDLE ∧
      w2.sent = w1.sent ++ [Sent.nrc (reverseIds 0x1002) 0x37 0x24] ∧
      (0x31 ≠ sampleConstants.PROCESSING_TRANSFER_COMPLETE →
        otaStatus sampleConstants 0x1002 w1 = some sampleConstants.IDLE) ∧
      (0x31 = sampleConstants.PROCESSING_TRANSFER_COMPLETE →
        otaStatus sampleConstants 0x1002 w1 = some sampleConstants.READY) :=
  transfer_exit_twice sampleConstants (ctor 3) 0x1002 [0x02, 0x37, 0x00] (freshWorld 0x31)
    0x31 (by decide) rfl (by decide) (by decide)

/-- C5: for every request, of any length, and every stored OTA status, one
call of the handler emits exactly one response: the calls to the senders after
the call are those before it followed by a single one, which is either a
positive response or a negative response and not both. -/
theorem transfer_exit_one_response (k : OtaConstants) (self : RequestTransferExit)
    (can_id : Nat) (req : List Nat) (w : World) (v : Nat)
    (hst : otaStatus k can_id w = some v) :
    ∃ w1 x, requestTRansferExitRequest k self can_id req w = some w1 ∧
      w1.sent = w.sent ++ [x] ∧ (w1.sent.drop w.sent.length).length = 1 ∧
      ((x.isPositive = true ∧ x.isNegative = false) ∨
        (x.isPositive = false ∧ x.isNegative = true)) := by
  by_cases h : req.length < 3
  · refine ⟨_, _, request_short k self can_id req w h, rfl, ?_, Or.inr ⟨rfl, rfl⟩⟩
    simp [NegativeResponse.sendNRC]
  · have h3 : 3 ≤ req.length := by omega
    by_cases hv : v = k.PROCESSING_TRANSFER_COMPLETE
    · subst hv
      refine ⟨_, _, request_complete k self can_id req w h3 hst, rfl, ?_, Or.inl ⟨rfl, rfl⟩⟩
      simp [FileManager.setDidValue, GenerateFrames.sendFrame]
    · refine ⟨_, _, request_other k self can_id req w v h3 hst hv, rfl, ?_,
        Or.inr ⟨rfl, rfl⟩⟩
      simp [FileManager.setDidValue, NegativeResponse.sendNRC]

/-- Witness for C5: a two-byte request against the status
`PROCESSING_TRANSFER_COMPLETE`. -/
theorem transfer_exit_one_response_witness :
    ∃ w1 x, requestTRansferExitRequest sampleConstants (ctor 3) 0x1002 [0x01, 0x37]
        (freshWorld 0x31) = some w1 ∧
      w1.sent = (freshWorld 0x31).sent ++ [x] ∧
      (w1.sent.drop (freshWorld 0x31).sent.length).length = 1 ∧
      ((x.isPositive = true ∧ x.isNegative = false) ∨
        (x.isPositive = false ∧ x.isNegative = true)) :=
  transfer_exit_one_response sampleConstants (ctor 3) 0x1002 [0x01, 0x37] (freshWorld 0x31)
    0x31 rfl

/-- C6: for every 8-bit sender `s` and receiver `r`, a Transfer-Exit request
with address `(s << 8) | r` gets a response, and every response the handler
emits for it (positive, `IMLOIF` or `RSE`) is addressed to `(r << 8) | s`; the
request address with sender `0x10` and receiver `0x02` gives the response
address with sender `0x02` and receiver `0x10`. -/
theorem transfer_exit_response_address (k : OtaConstants) (self : RequestTransferExit)
    (s r : Nat) (req : List Nat) (w : World) (v : Nat) (hs : s < 256) (hr : r < 256)
    (hst : otaStatus k ((s <<< 8) ||| r) w = some v) :
    ∃ w1, requestTRansferExitRequest k self ((s <<< 8) ||| r) req w = some w1 ∧
      w1.sent.drop w.sent.length ≠ [] ∧
      (∀ x ∈ w1.sent.drop w.sent.length, x.address = (r <<< 8) ||| s) ∧
      reverseIds ((0x10 <<< 8) ||| 0x02) = (0x02 <<< 8) ||| 0x10 := by
  obtain ⟨w1, x, hrun, hsent, haddr⟩ := request_address k self ((s <<< 8) ||| r) req w v hst
  refine ⟨w1, hrun, ?_, ?_, by decide⟩
  · rw [hsent, List.drop_left]
    exact List.cons_ne_nil _ _
  · intro y hy
    rw [hsent, List.drop_left] at hy
    simp only [List.mem_singleton] at hy
    subst hy
    rw [haddr, reverseIds_pack s r hs hr]

/-- Witness for C6: sender `0x10`, receiver `0x02`, a three-byte request
against the status `PROCESSING_TRANSFER_COMPLETE`. -/
theorem transfer_exit_response_address_witness :
    ∃ w1, requestTRansferExitRequest sampleConstants (ctor 3) ((0x10 <<< 8) ||| 0x02)
        [0x02, 0x37, 0x00] (freshWorld 0x31) = some w1 ∧
      w1.sent.drop (freshWorld 0x31).sent.length ≠ [] ∧
      (∀ x ∈ w1.sent.drop (freshWorld 0x31).sent.length,
        x.address = (0x02 <<< 8) ||| 0x10) ∧
      reverseIds ((0x10 <<< 8) ||| 0x02) = (0x02 <<< 8) ||| 0x10 :=
  transfer_exit_response_address sampleConstants (ctor 3) 0x10 0x02 [0x02, 0x37, 0x00]
    (freshWorld 0x31) 0x31 (by decide) (by decide) rfl

/-- C7: the address reversal computed in the handler is an involution on
16-bit frame addresses: applying it twice to `a < 2^16` returns `a`. -/
theorem reverseIds_involutive (a : Nat) (h : a < 2 ^ 16) :
    reverseIds (reverseIds a) = a := by
  rw [reverseIds_eq, reverseIds_eq]
  have hhi : a / 256 < 256 := by omega
  have h1 : a / 256 % 256 = a / 256 := Nat.mod_eq_of_lt hhi
  rw [h1]
  have h2 : (a % 256 * 256 + a / 256) % 256 = a / 256 := by omega
  have h3 : (a % 256 * 256 + a / 256) / 256 = a % 256 := by omega
  rw [h2, h3]
  omega

/-- Witness for C7: the address `0x1002`. -/
theorem reverseIds_involutive_witness : reverseIds (reverseIds 0x1002) = 0x1002 :=
  reverseIds_involutive 0x1002 (by decide)

/-- C8, counterexample: with a completion callback registered and the stored
status `PROCESSING_TRANSFER_COMPLETE`, the handler emits the positive response
but the callback has not been invoked at all, so not with `true` either. -/
theorem transfer_exit_request_skips_callback :
    ∃ w1, requestTRansferExitRequest sampleConstants
        (setTransferCompleteCallBack (ctor 3) (some fun b => b)) 0x1002 [0x02, 0x37, 0x00]
        (freshWorld 0x31) = some w1 ∧
      w1.sent = [Sent.frame 0x0210 [0x02, 0x77, 0x00]] ∧
      w1.callbackCalls = [] ∧ w1.callbackCalls ≠ [true] :=
  ⟨_, rfl, rfl, rfl, by decide⟩

/-- C8, amended: the handler `requestTRansferExitRequest` returns no value and
never invokes the completion callback: for every stored status it returns with
the callback invocations unchanged, and its effect is the same whichever
callback is registered.  The callback is invoked by the separate method
`requestTransferExit(id, transferSuccess)`: with `f` registered it invokes `f`
once with the `transferSuccess` it was given and returns the boolean of `f`. -/
theorem transfer_exit_callback_separate (k : OtaConstants) (self : RequestTransferExit)
    (can_id : Nat) (req : List Nat) (w : World) (v : Nat) (f : Bool → Bool)
    (id : Int) (transferSuccess : Bool) (hst : otaStatus k can_id w = some v) :
    (∃ w1, requestTRansferExitRequest k (setTransferCompleteCallBack self (some f))
        can_id req w = some w1 ∧
      w1.callbackCalls = w.callbackCalls ∧
      requestTRansferExitRequest k self can_id req w = some w1) ∧
    requestTransferExit (setTransferCompleteCallBack self (some f)) id transferSuccess w
      = (f transferSuccess,
          { w with callbackCalls := w.callbackCalls ++ [transferSuccess] }) := by
  refine ⟨?_, rfl⟩
  by_cases h : req.length < 3
  · exact ⟨_, request_short k _ can_id req w h, rfl, request_short k _ can_id req w h⟩
  · have h3 : 3 ≤ req.length := by omega
    by_cases hv : v = k.PROCESSING_TRANSFER_COMPLETE
    · subst hv
      exact ⟨_, request_complete k _ can_id req w h3 hst, rfl,
        request_complete k _ can_id req w h3 hst⟩
    · exact ⟨_, request_other k _ can_id req w v h3 hst hv, rfl,
        request_other k _ can_id req w v h3 hst hv⟩

/-- Witness for the amended C8: the callback `not`, stored status
`PROCESSING_TRANSFER_COMPLETE`. -/
theorem transfer_exit_callback_separate_witness :
    (∃ w1, requestTRansferExitRequest sampleConstants
        (setTransferCompleteCallBack (ctor 3) (some not)) 0x1002 [0x02, 0x37, 0x00]
        (freshWorld 0x31) = some w1 ∧
      w1.callbackCalls = (freshWorld 0x31).callbackCalls ∧
      requestTRansferExitRequest sampleConstants (ctor 3) 0x1002 [0x02, 0x37, 0x00]
        (freshWorld 0x31) = some w1) ∧
    requestTransferExit (setTransferCompleteCallBack (ctor 3) (some not)) 7 true
        (freshWorld 0x31)
      = (not true, { freshWorld 0x31 with
          callbackCalls := (freshWorld 0x31).callbackCalls ++ [true] }) :=
  transfer_exit_callback_separate sampleConstants (ctor 3) 0x1002 [0x02, 0x37, 0x00]
    (freshWorld 0x31) 0x31 not 7 true rfl

/-- C9: for every id and every boolean `transferSuccess`,
`requestTransferExit(id, transferSuccess)` returns `f(transferSuccess)` where
`f` is the most recently registered callback (whatever was registered before
it is overwritten), returns `false` when no callback has been registered since
construction, and does not depend on `id`. -/
theorem requestTransferExit_result (socket : Int) (earlier : List (Option (Bool → Bool)))
    (f : Bool → Bool) (self : RequestTransferExit) (id id2 : Int) (transferSuccess : Bool)
    (w : World) :
    (requestTransferExit
        (setTransferCompleteCallBack
          (earlier.foldl setTransferCompleteCallBack (ctor socket)) (some f))
        id transferSuccess w).1 = f transferSuccess ∧
    (requestTransferExit (ctor socket) id transferSuccess w).1 = false ∧
    requestTransferExit self id transferSuccess w
      = requestTransferExit self id2 transferSuccess w :=
  ⟨rfl, rfl, rfl⟩

end RequestTransferExit

/-! ## Transfer-Data: the claims -/

namespace TransferData

/-- C10, counterexample: 255 one-byte chunks submitted in order with block
sequence numbers 1..255 to a freshly configured session are all accepted (255
checksums), and `expected_block_sequence_number` ends at 0, not at 256. -/
theorem transfer_counter_wraps :
    (submitAll writeOk 0x1002 (inOrder 1 (List.replicate 255 [0x00]))
        (configure 1, freshWorld 0x00)).1.expected_block_sequence_number = 0 ∧
    (submitAll writeOk 0x1002 (inOrder 1 (List.replicate 255 [0x00]))
        (configure 1, freshWorld 0x00)).1.checksums.length = 255 ∧
    (submitAll writeOk 0x1002 (inOrder 1 (List.replicate 255 [0x00]))
        (configure 1, freshWorld 0x00)).1.expected_block_sequence_number ≠ 255 + 1 := by
  have h := submitAll_inOrder writeOk 0x1002 (fun _ _ => rfl) (List.replicate 255 [0x00]) 1
    (configure 1) (freshWorld 0x00)
    (by
      intro p hp
      rw [List.eq_of_mem_replicate hp]
      exact ⟨by decide, by decide⟩)
    rfl
  have h1 : (submitAll writeOk 0x1002 (inOrder 1 (List.replicate 255 [0x00]))
      (configure 1, freshWorld 0x00)).1.expected_block_sequence_number = 0 := by
    rw [h.1, List.length_replicate]
  refine ⟨h1, ?_, ?_⟩
  · rw [h.2, List.length_append, List.length_map, List.length_replicate]
    rfl
  · rw [h1]
    decide

/-- C10, amended: for every N and every sequence of N Transfer-Data chunks with
non-empty payloads of at most `chunk_size` bytes, submitted in order with
block numbers 1..N (each carried as a byte) to a freshly configured session
whose memory backend accepts the writes, `expected_block_sequence_number` ends
at `(N + 1) mod 256`, which is `N + 1` when `N ≤ 254`, and `checksums` has
length N with entry i equal to `computeChecksum` of the payload of chunk i. -/
theorem transfer_in_order (write : Nat → List Nat → Bool) (can_id chunk_size : Nat)
    (payloads : List (List Nat)) (w : World)
    (hp : ∀ p ∈ payloads, p ≠ [] ∧ p.length ≤ chunk_size)
    (hw : ∀ offset p, write offset p = true) :
    (submitAll write can_id (inOrder 1 payloads)
        (configure chunk_size, w)).1.expected_block_sequence_number
      = (payloads.length + 1) % 256 ∧
    (payloads.length ≤ 254 →
      (submitAll write can_id (inOrder 1 payloads)
          (configure chunk_size, w)).1.expected_block_sequence_number
        = payloads.length + 1) ∧
    (submitAll write can_id (inOrder 1 payloads) (configure chunk_size, w)).1.checksums.length
      = payloads.length ∧
    (submitAll write can_id (inOrder 1 payloads) (configure chunk_size, w)).1.checksums
      = payloads.map (fun p => computeChecksum p p.length) := by
  have h := submitAll_inOrder write can_id hw payloads 1 (configure chunk_size) w hp rfl
  have hcs : (submitAll write can_id (inOrder 1 payloads)
      (configure chunk_size, w)).1.checksums
      = payloads.map (fun p => computeChecksum p p.length) := by
    rw [h.2]
    simp [configure]
  refine ⟨?_, ?_, ?_, hcs⟩
  · rw [h.1, Nat.add_comm]
  · intro hN
    rw [h.1]
    omega
  · rw [hcs, List.length_map]

/-- Witness for the amended C10: chunk size 4, payloads `[1, 2, 3, 4]` and
`[5, 6]`. -/
theorem transfer_in_order_witness :
    (submitAll writeOk 0x1002 (inOrder 1 [[0x01, 0x02, 0x03, 0x04], [0x05, 0x06]])
        (configure 4, freshWorld 0x00)).1.expected_block_sequence_number
      = ([[0x01, 0x02, 0x03, 0x04], [0x05, 0x06]].length + 1) % 256 ∧
    ([[0x01, 0x02, 0x03, 0x04], [0x05, 0x06]].length ≤ 254 →
      (submitAll writeOk 0x1002 (inOrder 1 [[0x01, 0x02, 0x03, 0x04], [0x05, 0x06]])
          (configure 4, freshWorld 0x00)).1.expected_block_sequence_number
        = [[0x01, 0x02, 0x03, 0x04], [0x05, 0x06]].length + 1) ∧
    (submitAll writeOk 0x1002 (inOrder 1 [[0x01, 0x02, 0x03, 0x04], [0x05, 0x06]])
        (configure 4, freshWorld 0x00)).1.checksums.length
      = [[0x01, 0x02, 0x03, 0x04], [0x05, 0x06]].length ∧
    (submitAll writeOk 0x1002 (inOrder 1 [[0x01, 0x02, 0x03, 0x04], [0x05, 0x06]])
        (configure 4, freshWorld 0x00)).1.checksums
      = [[0x01, 0x02, 0x03, 0x04], [0x05, 0x06]].map (fun p => computeChecksum p p.length) :=
  transfer_in_order writeOk 0x1002 4 [[0x01, 0x02, 0x03, 0x04], [0x05, 0x06]]
    (freshWorld 0x00) (by decide) (fun _ _ => rfl)

end TransferData

/-! ## ECU notification and the frame effects of Transfer-Exit: the claims -/

namespace ECU

/-- C12: for every 8-bit module id `m` (and 8-bit `MCU_ID`),
`sendNotificationToMCU` sends exactly one frame, whose 16-bit identifier is
`(m << 8) | MCU_ID`, with high byte `m` and low byte `MCU_ID`, and whose
payload is `[0x01, 0xD9]`. -/
theorem notification_frame (MCU_ID m : Nat) (socket : Int) (w : World)
    (hm : m < 256) (hMCU : MCU_ID < 256) :
    (sendNotificationToMCU MCU_ID { _module_id := m, _ecu_socket := socket } w).sent
      = w.sent ++ [Sent.frame ((m <<< 8) ||| MCU_ID) [0x01, 0xD9]] ∧
    ((m <<< 8) ||| MCU_ID) < 2 ^ 16 ∧
    ((m <<< 8) ||| MCU_ID) / 256 = m ∧
    ((m <<< 8) ||| MCU_ID) % 256 = MCU_ID := by
  have hpack := RequestTransferExit.pack_eq m MCU_ID hMCU
  have hlt : ((m <<< 8) ||| MCU_ID) < 2 ^ 16 := by
    rw [hpack]
    omega
  refine ⟨?_, hlt, ?_, ?_⟩
  · simp only [sendNotificationToMCU, GenerateFrames.sendFrame]
    rw [Nat.mod_eq_of_lt hlt]
  · rw [hpack]
    omega
  · rw [hpack]
    omega

/-- Witness for C12: module id `0x14`, `MCU_ID = 0x10`. -/
theorem notification_frame_witness :
    (sendNotificationToMCU 0x10 { _module_id := 0x14, _ecu_socket := 3 }
        (freshWorld 0x00)).sent
      = (freshWorld 0x00).sent ++ [Sent.frame ((0x14 <<< 8) ||| 0x10) [0x01, 0xD9]] ∧
    ((0x14 <<< 8) ||| 0x10) < 2 ^ 16 ∧
    ((0x14 <<< 8) ||| 0x10) / 256 = 0x14 ∧
    ((0x14 <<< 8) ||| 0x10) % 256 = 0x10 :=
  notification_frame 0x10 0x14 3 (freshWorld 0x00) (by decide) (by decide)

end ECU

namespace RequestTransferExit

/-- C13: for every request of fewer than 3 bytes the handler neither reads nor
writes the DID store: it returns with the store equal to the one before the
call (so the OTA status and every other entry keep their values, a status
`PROCESSING_TRANSFER_COMPLETE` included), and the frames it sends are the same
whatever the store holds. -/
theorem transfer_exit_short_keeps_store (k : OtaConstants) (self : RequestTransferExit)
    (can_id : Nat) (req : List Nat) (w : World) (h : req.length < 3) :
    ∃ w1, requestTRansferExitRequest k self can_id req w = some w1 ∧
      w1.store = w.store ∧
      (∀ c d, FileManager.getDidValue d c w1 = FileManager.getDidValue d c w) ∧
      otaStatus k can_id w1 = otaStatus k can_id w ∧
      (otaStatus k can_id w = some k.PROCESSING_TRANSFER_COMPLETE →
        otaStatus k can_id w1 = some k.PROCESSING_TRANSFER_COMPLETE) ∧
      ∀ store2 : DidStore, ∃ w2,
        requestTRansferExitRequest k self can_id req { w with store := store2 } = some w2 ∧
        w2.sent = w1.sent ∧ w2.store = store2 := by
  refine ⟨_, request_short k self can_id req w h, rfl, fun _ _ => rfl, rfl, fun hs => hs, ?_⟩
  intro store2
  exact ⟨_, request_short k self can_id req { w with store := store2 } h, rfl, rfl⟩

/-- Witness for C13: a two-byte request against the status
`PROCESSING_TRANSFER_COMPLETE`. -/
theorem transfer_exit_short_keeps_store_witness :
    ∃ w1, requestTRansferExitRequest sampleConstants (ctor 3) 0x1002 [0x01, 0x37]
        (freshWorld 0x31) = some w1 ∧
      w1.store = (freshWorld 0x31).store ∧
      (∀ c d, FileManager.getDidValue d c w1 = FileManager.getDidValue d c (freshWorld 0x31)) ∧
      otaStatus sampleConstants 0x1002 w1 = otaStatus sampleConstants 0x1002 (freshWorld 0x31) ∧
      (otaStatus sampleConstants 0x1002 (freshWorld 0x31)
          = some sampleConstants.PROCESSING_TRANSFER_COMPLETE →
        otaStatus sampleConstants 0x1002 w1
          = some sampleConstants.PROCESSING_TRANSFER_COMPLETE) ∧
      ∀ store2 : DidStore, ∃ w2,
        requestTRansferExitRequest sampleConstants (ctor 3) 0x1002 [0x01, 0x37]
          { freshWorld 0x31 with store := store2 } = some w2 ∧
        w2.sent = w1.sent ∧ w2.store = store2 :=
  transfer_exit_short_keeps_store sampleConstants (ctor 3) 0x1002 [0x01, 0x37]
    (freshWorld 0x31) (by decide)

end RequestTransferExit

namespace RequestTransferExit

/-- C14: for every 32-bit `can_id` the response address is the byte swap of
the low 16 bits only and is below `2^16`; applying the reversal twice yields
`can_id & 0xFFFF`, which equals `can_id` exactly when `can_id < 2^16`; and on a
request of at least 3 bytes the DID store is read and written under the
original `can_id`: the outcome is decided by the entry stored under `can_id`
alone, the response goes to the reversed identifier, the status is written
under `can_id` and every other entry is left as it was. -/
theorem transfer_exit_address_width (k : OtaConstants) (self : RequestTransferExit)
    (can_id : Nat) (req : List Nat) (w : World) (v : Nat) (hid : can_id < 2 ^ 32)
    (h : 3 ≤ req.length) (hst : otaStatus k can_id w = some v) :
    reverseIds can_id = reverseIds (can_id &&& 0xFFFF) ∧
    reverseIds can_id
      = ((can_id &&& 0xFFFF) % 256) * 256 + (can_id &&& 0xFFFF) / 256 ∧
    reverseIds can_id < 2 ^ 16 ∧
    reverseIds (reverseIds can_id) = can_id &&& 0xFFFF ∧
    (reverseIds (reverseIds can_id) = can_id ↔ can_id < 2 ^ 16) ∧
    ∃ w1 x, requestTRansferExitRequest k self can_id req w = some w1 ∧
      w1.sent = w.sent ++ [x] ∧ x.address = reverseIds can_id ∧
      w1.store = (FileManager.setDidValue k.OTA_UPDATE_STATUS_DID
          [if v = k.PROCESSING_TRANSFER_COMPLETE then k.READY else k.IDLE] can_id w).store ∧
      (∀ c d, ¬ (c = can_id ∧ d = k.OTA_UPDATE_STATUS_DID) → w1.store c d = w.store c d) ∧
      ∀ store2 : DidStore,
        store2 can_id k.OTA_UPDATE_STATUS_DID = w.store can_id k.OTA_UPDATE_STATUS_DID →
        ∃ w2, requestTRansferExitRequest k self can_id req { w with store := store2 }
            = some w2 ∧
          w2.sent = w1.sent := by
  have hand := and_ffff_eq can_id
  refine ⟨?_, ?_, reverseIds_lt can_id, ?_, ?_, ?_⟩
  · rw [hand, reverseIds_eq, reverseIds_eq]
    omega
  · rw [hand, reverseIds_eq]
    omega
  · rw [hand, reverseIds_twice]
  · rw [reverseIds_twice]
    constructor
    · intro he
      omega
    · intro hlt
      omega
  · obtain ⟨w1, x, hrun, hsent, haddr, hx, hstore⟩ := request_long k self can_id req w v h hst
    refine ⟨w1, x, hrun, hsent, haddr, hstore, ?_, ?_⟩
    · intro c d hcd
      rw [hstore]
      simp [FileManager.setDidValue, hcd]
    · intro store2 hs2
      have hst2 : otaStatus k can_id { w with store := store2 } = some v := by
        unfold otaStatus FileManager.getDidValue at hst ⊢
        simpa [hs2] using hst
      obtain ⟨w2, y, hrun2, hsent2, _, hy, _⟩ :=
        request_long k self can_id req { w with store := store2 } v h hst2
      exact ⟨w2, hrun2, by rw [hsent2, hsent, hy, hx]⟩

/-- Witness for C14: the identifier `0x12345678`, with the status
`PROCESSING_TRANSFER_COMPLETE` stored under it and `IDLE` elsewhere. -/
theorem transfer_exit_address_width_witness :
    reverseIds 0x12345678 = reverseIds (0x12345678 &&& 0xFFFF) ∧
    reverseIds 0x12345678
      = ((0x12345678 &&& 0xFFFF) % 256) * 256 + (0x12345678 &&& 0xFFFF) / 256 ∧
    reverseIds 0x12345678 < 2 ^ 16 ∧
    reverseIds (reverseIds 0x12345678) = 0x12345678 &&& 0xFFFF ∧
    (reverseIds (reverseIds 0x12345678) = 0x12345678 ↔ 0x12345678 < 2 ^ 16) ∧
    ∃ w1 x, requestTRansferExitRequest sampleConstants (ctor 3) 0x12345678
        [0x02, 0x37, 0x00] (keyedWorld 0x12345678 0x31 0x00) = some w1 ∧
      w1.sent = (keyedWorld 0x12345678 0x31 0x00).sent ++ [x] ∧
      x.address = reverseIds 0x12345678 ∧
      w1.store = (FileManager.setDidValue sampleConstants.OTA_UPDATE_STATUS_DID
          [if 0x31 = sampleConstants.PROCESSING_TRANSFER_COMPLETE
            then sampleConstants.READY else sampleConstants.IDLE] 0x12345678
          (keyedWorld 0x12345678 0x31 0x00)).store ∧
      (∀ c d, ¬ (c = 0x12345678 ∧ d = sampleConstants.OTA_UPDATE_STATUS_DID) →
        w1.store c d = (keyedWorld 0x12345678 0x31 0x00).store c d) ∧
      ∀ store2 : DidStore,
        store2 0x12345678 sampleConstants.OTA_UPDATE_STATUS_DID
          = (keyedWorld 0x12345678 0x31 0x00).store 0x12345678
              sampleConstants.OTA_UPDATE_STATUS_DID →
        ∃ w2, requestTRansferExitRequest sampleConstants (ctor 3) 0x12345678
            [0x02, 0x37, 0x00] { keyedWorld 0x12345678 0x31 0x00 with store := store2 }
            = some w2 ∧
          w2.sent = w1.sent :=
  transfer_exit_address_width sampleConstants (ctor 3) 0x12345678 [0x02, 0x37, 0x00]
    (keyedWorld 0x12345678 0x31 0x00) 0x31 (by decide) (by decide) rfl

end RequestTransferExit

/-! ## HVAC data file: the claims -/

namespace HVACModule

/-- C11, counterexample: for a value longer than one byte the claim fails.
With the two-byte value `01 02` under the DID `0xF1A2` and the file lines
`e001 00 ` and `f1a2 01 02 `, `fetchHvacData` writes back `E001 00` and
`F1A2 0102`.  The second line has its bytes joined without a space, so it is
not the persisted layout `F1A2 01 02`, in either letter case (the loop of
`writeDataToFile` puts a space after every byte of the same entry). -/
theorem fetchHvacData_joins_bytes :
    (fetchHvacData sampleHvacConstants sampleRand
        { default_DID_hvac := twoByteMap
          hvac_data := ("e001 00 ").toList ++ [Char.ofNat 10]
            ++ ("f1a2 01 02 ").toList ++ [Char.ofNat 10]
          old_hvac_data := none }).map (fun st => st.hvac_data)
      = some (("E001 00").toList ++ [Char.ofNat 10]
          ++ ("F1A2 0102").toList ++ [Char.ofNat 10]) ∧
    persistedLayout true 0xE001 [0x00] = ("E001 00").toList ∧
    persistedLayout true 0xF1A2 [0x01, 0x02] = ("F1A2 01 02").toList ∧
    ("F1A2 0102").toList ≠ persistedLayout true 0xF1A2 [0x01, 0x02] ∧
    to_lowercase ("F1A2 0102").toList ≠ persistedLayout false 0xF1A2 [0x01, 0x02] ∧
    defaultLine (0xF1A2, [0x01, 0x02]) = ("f1a2 01 02 ").toList ++ [Char.ofNat 10] := by
  refine ⟨?_, ?_, ?_, ?_, ?_, ?_⟩ <;> decide

/-- C11, amended: for every content of `default_DID_hvac` whose values are one
byte long (16-bit DIDs, as the initializer stores them) and that holds the six
DIDs `generateData` assigns, `fetchHvacData` returns and every line it writes
back to the file is the persisted layout of an entry of the map: the key as 4
hexadecimal digits, one space, then the byte as two hexadecimal digits. -/
theorem fetchHvacData_one_byte_layout (c : HvacConstants) (rand : Nat → Nat)
    (st : HvacState) (hone : OneByte st.default_DID_hvac)
    (hkeys : ∀ did ∈ [c.AMBIENT_TEMPERATURE_DID, c.CABIN_TEMPERATURE_DID,
        c.HVAC_SET_TEMPERATURE_DID, c.FAN_SPEED_DID, c.HVAC_MODES_DID,
        c.MASS_AIR_FLOW_SENSOR], HasKey did st.default_DID_hvac) :
    ∃ st1 written, fetchHvacData c rand st = some st1 ∧
      st1.hvac_data = persistedLines written ∧
      ∀ p ∈ written, p ∈ st1.default_DID_hvac ∧
        ∃ byte, p.2 = [byte] ∧
          persistedLayout true p.1 p.2
            = formatHex true 4 p.1 ++ [' '] ++ formatHex true 2 byte ∧
          (formatHex true 4 p.1).length = 4 ∧ (formatHex true 2 byte).length = 2 ∧
          ∀ ch ∈ formatHex true 4 p.1 ++ formatHex true 2 byte, isHexDigit ch = true := by
  obtain ⟨m1, hgen, hone1⟩ := generateData_oneByte c rand st.default_DID_hvac hone
    (hkeys _ (by simp)) (hkeys _ (by simp)) (hkeys _ (by simp)) (hkeys _ (by simp))
    (hkeys _ (by simp)) (hkeys _ (by simp))
  obtain ⟨written, hmem, hfold⟩ := updated_contents_oneByte m1 hone1
    (getlines st.hvac_data []) []
  refine ⟨{ st with default_DID_hvac := m1, hvac_data := persistedLines written }, written,
    ?_, rfl, ?_⟩
  · unfold fetchHvacData
    rw [hgen]
    simp only [Option.bind_eq_bind, Option.some_bind]
    rw [hfold, List.nil_append]
  · intro p hp
    have hpm := hmem p hp
    obtain ⟨hkey, hlen, hbyte⟩ := hone1 p hpm
    obtain ⟨byte, hb⟩ := List.length_eq_one.mp hlen
    have hlt : byte < 256 := hbyte byte (by simp [hb])
    refine ⟨hpm, byte, hb, ?_, ?_, ?_, ?_⟩
    · simp [persistedLayout, hb, List.intercalate]
    · exact formatHex_length true 3 p.1 (by simpa using hkey)
    · exact formatHex_length true 1 byte (by simpa using hlt)
    · intro ch hch
      rcases List.mem_append.mp hch with h | h
      · exact formatHex_isHex true 4 p.1 ch h
      · exact formatHex_isHex true 2 byte ch h

/-- Witness for the amended C11: the one-byte map and the file lines `e001 00 `
and `f1a2 00 `. -/
theorem fetchHvacData_one_byte_layout_witness :
    ∃ st1 written, fetchHvacData sampleHvacConstants sampleRand
        { default_DID_hvac := oneByteMap
          hvac_data := ("e001 00 ").toList ++ [Char.ofNat 10]
            ++ ("f1a2 00 ").toList ++ [Char.ofNat 10]
          old_hvac_data := none } = some st1 ∧
      st1.hvac_data = persistedLines written ∧
      ∀ p ∈ written, p ∈ st1.default_DID_hvac ∧
        ∃ byte, p.2 = [byte] ∧
          persistedLayout true p.1 p.2
            = formatHex true 4 p.1 ++ [' '] ++ formatHex true 2 byte ∧
          (formatHex true 4 p.1).length = 4 ∧ (formatHex true 2 byte).length = 2 ∧
          ∀ ch ∈ formatHex true 4 p.1 ++ formatHex true 2 byte, isHexDigit ch = true :=
  fetchHvacData_one_byte_layout sampleHvacConstants sampleRand
    { default_DID_hvac := oneByteMap
      hvac_data := ("e001 00 ").toList ++ [Char.ofNat 10]
        ++ ("f1a2 00 ").toList ++ [Char.ofNat 10]
      old_hvac_data := none }
    (by unfold OneByte; decide) (by unfold HasKey; decide)

end HVACModule
